import Mathlib

/-!
Shallow embedding of the rinha-2024-q1 ledger service (`src/main.go`).

The HTTP handlers `handleTransactions` and `handleStatement` are embedded as
pure functions over an explicit ledger state.  The `credit`/`debit` stored
procedures live in `db.sql`, which is not part of `src/`; they are modelled
from the spec (see their doc comments).  Machine integers are modelled as
unbounded `Int` (no overflow guard exists in the source and no claim touches
overflow).
-/

namespace Rinha

/-- One row of the `transactions` table: amount, type ("c"/"d"), description,
and the per-account sequence number (the serial `id` that `ORDER BY id DESC`
sorts on). -/
structure Txn where
  amount : Int
  kind : String
  description : String
  seq : Nat
deriving DecidableEq, Repr

/-- One customer's row plus its transaction rows, newest first. -/
structure AccountState where
  limit : Int
  balance : Int
  log : List Txn
deriving DecidableEq, Repr

/-- Decoded request body of `POST /clientes/{id}/transacoes`
(`transactionRequest` in `main.go`, JSON fields `valor`/`tipo`/`descricao`). -/
structure transactionRequest where
  valor : Int
  tipo : String
  descricao : String
deriving DecidableEq, Repr

/-- Abstract outcome of one apply call, refining the handler's status codes:
422 on a validation failure is `invalidInput`, 404 is `notFound`, 422 with
`success = false` from `debit` is `insufficientLimit`, 200 is `ok` carrying
the JSON body `{"limite": _, "saldo": _}`. -/
inductive ApplyResult where
  | ok (limite saldo : Int)
  | invalidInput
  | notFound
  | insufficientLimit
deriving DecidableEq, Repr

/-- True exactly on the `ok` outcome (HTTP 200). -/
def ApplyResult.isOk : ApplyResult → Bool
  | .ok _ _ => true
  | _ => false

/-- Value of a decimal digit character. -/
def digitVal (c : Char) : Option Nat :=
  if c.isDigit then some (c.toNat - '0'.toNat) else none

/-- Parse a non-empty list of decimal digits. -/
def digitsVal (cs : List Char) : Option Nat :=
  if cs.isEmpty then none
  else cs.foldl (fun acc c => acc.bind fun n => (digitVal c).map fun d => 10 * n + d)
    (some 0)

/-- Embedding of Go's `strconv.Atoi`: an optional sign followed by one or
more decimal digits; anything else is an error (`none`). -/
def atoi (s : String) : Option Int :=
  match s.data with
  | '+' :: rest => (digitsVal rest).map fun n => (n : Int)
  | '-' :: rest => (digitsVal rest).map fun n => -(n : Int)
  | cs => (digitsVal cs).map fun n => (n : Int)

/-- Modelled from the spec: the `credit` stored procedure invoked by
`SELECT * FROM credit($1, $2, $3)` lives in `db.sql`, which is not under
`src/`.  Per the spec, a credit is always accepted: it adds `amount` to the
balance and appends one immutable log entry carrying the next sequence
number, as one indivisible unit, and returns the scanned columns
`(newBalance, success, limit)`. -/
def credit (s : AccountState) (amount : Int) (desc : String) :
    AccountState × Int × Bool × Int :=
  let s' : AccountState :=
    { s with balance := s.balance + amount,
             log := ⟨amount, "c", desc, s.log.length + 1⟩ :: s.log }
  (s', s'.balance, true, s.limit)

/-- Modelled from the spec: the `debit` stored procedure invoked by
`SELECT * FROM debit($1, $2, $3)` lives in `db.sql`, which is not under
`src/`.  Per the spec, a debit is accepted iff the candidate balance
`balance - amount` is at least `-limit`; on acceptance the balance update and
the log append happen as one indivisible unit, otherwise the state is
unchanged and `success` is `false`. -/
def debit (s : AccountState) (amount : Int) (desc : String) :
    AccountState × Int × Bool × Int :=
  if -s.limit ≤ s.balance - amount then
    let s' : AccountState :=
      { s with balance := s.balance - amount,
               log := ⟨amount, "d", desc, s.log.length + 1⟩ :: s.log }
    (s', s'.balance, true, s.limit)
  else (s, s.balance, false, s.limit)

/-- The five provisioned customers, id 1..5 (`customerID < 1 || customerID > 5`
is the handler's provisioning check). -/
structure Ledger where
  accounts : Int → AccountState

/-- Embedding of `handleTransactions` in `main.go`, at the level of one
request: `body` is the JSON decode result (`none` = decode error, 422), then
the handler checks `valor < 1` (422), then `tipo != "d" && tipo != "c"`
(422), then the description codepoint count outside 1..10 (422), then parses
the `{id}` path segment (404 on error), then the range 1..5 (404), and only
then runs the `credit`/`debit` stored procedure, answering 422 when
`success` is false and 200 otherwise. -/
def handleTransactions (L : Ledger) (body : Option transactionRequest)
    (idStr : String) : Ledger × ApplyResult :=
  match body with
  | none => (L, .invalidInput)
  | some tr =>
    if tr.valor < 1 then (L, .invalidInput)
    else if tr.tipo ≠ "d" ∧ tr.tipo ≠ "c" then (L, .invalidInput)
    else if tr.descricao.length < 1 ∨ 10 < tr.descricao.length then (L, .invalidInput)
    else
      match atoi idStr with
      | none => (L, .notFound)
      | some id =>
        if id < 1 ∨ 5 < id then (L, .notFound)
        else
          let r := if tr.tipo = "c" then credit (L.accounts id) tr.valor tr.descricao
                   else debit (L.accounts id) tr.valor tr.descricao
          (⟨fun j => if j = id then r.1 else L.accounts j⟩,
           if r.2.2.1 then .ok r.2.2.2 r.2.1 else .insufficientLimit)

/-- Body of the statement response: `saldo.total`, `saldo.limite` and the
`ultimas_transacoes` rows. -/
structure StatementRes where
  total : Int
  limite : Int
  txns : List Txn
deriving DecidableEq, Repr

/-- One consistent read of an account, as produced by `handleStatement`'s
transaction: the customer row plus
`SELECT ... FROM transactions WHERE customer_id = $1 ORDER BY id DESC LIMIT 10`
(the log is stored newest first, so that query is `take 10`). -/
def snapshotAccount (s : AccountState) : StatementRes :=
  ⟨s.balance, s.limit, s.log.take 10⟩

/-- Embedding of `handleStatement` in `main.go`: parse the `{id}` path
segment (404 on error), check the range 1..5 (404), then read balance, limit
and the ten most recent transactions inside one storage transaction.
`none` is the 404 outcome. -/
def handleStatement (L : Ledger) (idStr : String) : Option StatementRes :=
  match atoi idStr with
  | none => none
  | some id =>
    if id < 1 ∨ 5 < id then none
    else some (snapshotAccount (L.accounts id))

/-- Per-account effect of one apply request: the body validations of
`handleTransactions` followed by the stored-procedure call, with the routing
(path parse, id range) stripped away.  Used to describe the evolution of a
single provisioned account. -/
def applyAccount (s : AccountState) (tr : transactionRequest) :
    AccountState × ApplyResult :=
  if tr.valor < 1 then (s, .invalidInput)
  else if tr.tipo ≠ "d" ∧ tr.tipo ≠ "c" then (s, .invalidInput)
  else if tr.descricao.length < 1 ∨ 10 < tr.descricao.length then (s, .invalidInput)
  else
    let r := if tr.tipo = "c" then credit s tr.valor tr.descricao
             else debit s tr.valor tr.descricao
    (r.1, if r.2.2.1 then .ok r.2.2.2 r.2.1 else .insufficientLimit)

/-- Replay a sequence of apply requests against one account (rejected
requests leave the state unchanged). -/
def runOps (s : AccountState) (ops : List transactionRequest) : AccountState :=
  ops.foldl (fun t op => (applyAccount t op).1) s

/-- Signed balance effect of one logged transaction. -/
def txnEffect (t : Txn) : Int := if t.kind = "c" then t.amount else -t.amount

/-- Net balance effect of a transaction log. -/
def netEffect (log : List Txn) : Int := (log.map txnEffect).sum

/-- The list `[n, n-1, ..., 1]`: the sequence numbers of a newest-first log
of length `n`. -/
def countdown : Nat → List Nat
  | 0 => []
  | n + 1 => (n + 1) :: countdown n

/-- A freshly provisioned account: fixed limit, opening balance, empty log. -/
def mkAccount (lim b0 : Int) : AccountState := ⟨lim, b0, []⟩

/-- The body validations of `handleTransactions` all pass. -/
abbrev bodyValid (tr : transactionRequest) : Prop :=
  1 ≤ tr.valor ∧ (tr.tipo = "d" ∨ tr.tipo = "c") ∧
    1 ≤ tr.descricao.length ∧ tr.descricao.length ≤ 10

/-- Outcome of the `QueryRow(...).Scan` for the stored-procedure call:
either a query/scan error, or the three scanned columns. -/
inductive DbApply where
  | err
  | res (newBalance : Int) (success : Bool) (limite : Int)
deriving DecidableEq, Repr

/-- HTTP status written by `handleTransactions`, including the storage
outcome: the handler collapses `err != nil || !success` into the same 422 it
uses for validation failures. -/
def transactionsStatus (body : Option transactionRequest) (idStr : String)
    (d : DbApply) : Nat :=
  match body with
  | none => 422
  | some tr =>
    if tr.valor < 1 then 422
    else if tr.tipo ≠ "d" ∧ tr.tipo ≠ "c" then 422
    else if tr.descricao.length < 1 ∨ 10 < tr.descricao.length then 422
    else
      match atoi idStr with
      | none => 404
      | some id =>
        if id < 1 ∨ 5 < id then 404
        else
          match d with
          | .err => 422
          | .res _ success _ => if success then 200 else 422

/-- Storage outcomes seen by `handleStatement`: whether `db.Begin` succeeds,
the customer-row scan result (`none` = scan error — the handler never checks
it, so the zero values of `limit`/`balance` are used), and whether the
transactions query succeeds. -/
structure StatementDb where
  beginOk : Bool
  customerRow : Option (Int × Int)
  queryOk : Bool
deriving DecidableEq, Repr

/-- HTTP status and reported `(limite, total)` written by `handleStatement`
for each storage outcome: 404 before storage is touched, 500 when `Begin` or
the transactions query fails, and otherwise 200 — even when the customer-row
scan failed, since that error is discarded and the zero values reported. -/
def statementRun (idStr : String) (d : StatementDb) : Nat × Int × Int :=
  match atoi idStr with
  | none => (404, 0, 0)
  | some id =>
    if id < 1 ∨ 5 < id then (404, 0, 0)
    else if d.beginOk = false then (500, 0, 0)
    else
      let p := d.customerRow.getD (0, 0)
      if d.queryOk = false then (500, 0, 0)
      else (200, p.1, p.2)

/-- First success among `att i, att (i+1), ...` within `fuel` attempts
(`false` when every attempt fails). -/
def connectFrom (att : Nat → Bool) : Nat → Nat → Bool
  | _, 0 => false
  | i, fuel + 1 => if att i then true else connectFrom att (i + 1) fuel

/-- What `main` does after its connection loop: either proceed into serving
(recording whether a connection was actually obtained) or report a startup
failure and stop. -/
inductive StartupResult where
  | proceed (connected : Bool)
  | reportFailure
deriving DecidableEq, Repr

/-- Embedding of `main`'s startup loop: ten attempts at `pgxpool.New`
(attempt `i` succeeds iff `att i`), breaking on the first success; after the
loop `main` unconditionally prints "Connected to DB" and proceeds, whether
or not any attempt succeeded. -/
def startup (att : Nat → Bool) : StartupResult :=
  .proceed (connectFrom att 0 10)

/-- Concrete five-account ledger used to instantiate theorems: every account
has limit 100 and opening balance 0. -/
def L0 : Ledger := ⟨fun _ => mkAccount 100 0⟩

/-- Invariant tying an account state to its provisioning data: the limit is
the provisioned one, the balance is the opening balance plus the net effect
of the whole log, and the log carries the sequence numbers `n, ..., 1`
(newest first). -/
def Good (lim b0 : Int) (s : AccountState) : Prop :=
  s.limit = lim ∧ s.balance = b0 + netEffect s.log ∧
    s.log.map Txn.seq = countdown s.log.length

section Lemmas

/-- Rewriting lemma: a request whose body failed to decode is rejected with
no state change. -/
theorem ht_decode_fail (L : Ledger) (idStr : String) :
    handleTransactions L none idStr = (L, .invalidInput) := rfl

/-- Rewriting lemma: `valor < 1` is rejected first, with no state change. -/
theorem ht_bad_valor (L : Ledger) (tr : transactionRequest) (idStr : String)
    (h : tr.valor < 1) :
    handleTransactions L (some tr) idStr = (L, .invalidInput) := by
  simp [handleTransactions, h]

/-- Rewriting lemma: an unknown `tipo` is rejected second, with no state
change. -/
theorem ht_bad_tipo (L : Ledger) (tr : transactionRequest) (idStr : String)
    (h1 : ¬tr.valor < 1) (h2 : tr.tipo ≠ "d") (h3 : tr.tipo ≠ "c") :
    handleTransactions L (some tr) idStr = (L, .invalidInput) := by
  simp [handleTransactions, h1, h2, h3]

/-- Rewriting lemma: a description outside 1..10 codepoints is rejected
third, with no state change. -/
theorem ht_bad_desc (L : Ledger) (tr : transactionRequest) (idStr : String)
    (h1 : ¬tr.valor < 1) (h2 : tr.tipo = "d" ∨ tr.tipo = "c")
    (h3 : tr.descricao.length < 1 ∨ 10 < tr.descricao.length) :
    handleTransactions L (some tr) idStr = (L, .invalidInput) := by
  rcases h2 with h2 | h2 <;> rcases h3 with h3 | h3 <;>
    simp [handleTransactions, h1, h2, h3]

/-- Rewriting lemma: with a valid body, an unparseable `{id}` segment is
404, with no state change. -/
theorem ht_id_parse_fail (L : Ledger) (tr : transactionRequest) (idStr : String)
    (h1 : ¬tr.valor < 1) (h2 : tr.tipo = "d" ∨ tr.tipo = "c")
    (h3 : ¬(tr.descricao.length < 1 ∨ 10 < tr.descricao.length))
    (ha : atoi idStr = none) :
    handleTransactions L (some tr) idStr = (L, .notFound) := by
  rcases h2 with h2 | h2 <;> simp [handleTransactions, h1, h2, h3, ha] <;> omega

/-- Rewriting lemma: with a valid body, an id outside 1..5 is 404, with no
state change. -/
theorem ht_id_range (L : Ledger) (tr : transactionRequest) (idStr : String)
    (id : Int) (h1 : ¬tr.valor < 1) (h2 : tr.tipo = "d" ∨ tr.tipo = "c")
    (h3 : ¬(tr.descricao.length < 1 ∨ 10 < tr.descricao.length))
    (ha : atoi idStr = some id) (hr : id < 1 ∨ 5 < id) :
    handleTransactions L (some tr) idStr = (L, .notFound) := by
  rcases h2 with h2 | h2 <;> simp [handleTransactions, h1, h2, h3, ha, hr] <;>
    omega

/-- Rewriting lemma: a fully valid credit updates exactly the target account
and answers 200 with the new balance. -/
theorem ht_credit (L : Ledger) (tr : transactionRequest) (idStr : String)
    (id : Int) (h1 : ¬tr.valor < 1) (h2 : tr.tipo = "c")
    (h3 : ¬(tr.descricao.length < 1 ∨ 10 < tr.descricao.length))
    (ha : atoi idStr = some id) (hr : ¬(id < 1 ∨ 5 < id)) :
    handleTransactions L (some tr) idStr =
      (⟨fun j => if j = id then (credit (L.accounts id) tr.valor tr.descricao).1
                 else L.accounts j⟩,
       .ok (L.accounts id).limit ((L.accounts id).balance + tr.valor)) := by
  simp [handleTransactions, credit, h1, h2, h3, ha, hr]
  omega

/-- Rewriting lemma: a fully valid debit within the limit updates exactly
the target account and answers 200 with the new balance. -/
theorem ht_debit_ok (L : Ledger) (tr : transactionRequest) (idStr : String)
    (id : Int) (h1 : ¬tr.valor < 1) (h2 : tr.tipo = "d")
    (h3 : ¬(tr.descricao.length < 1 ∨ 10 < tr.descricao.length))
    (ha : atoi idStr = some id) (hr : ¬(id < 1 ∨ 5 < id))
    (h4 : -(L.accounts id).limit ≤ (L.accounts id).balance - tr.valor) :
    handleTransactions L (some tr) idStr =
      (⟨fun j => if j = id then (debit (L.accounts id) tr.valor tr.descricao).1
                 else L.accounts j⟩,
       .ok (L.accounts id).limit ((L.accounts id).balance - tr.valor)) := by
  simp [handleTransactions, debit, h1, h2, h3, ha, hr, h4]
  omega

/-- Rewriting lemma: a debit past the limit is rejected as 422 with the
ledger unchanged (the stored procedure returns `success = false`). -/
theorem ht_debit_reject (L : Ledger) (tr : transactionRequest) (idStr : String)
    (id : Int) (h1 : ¬tr.valor < 1) (h2 : tr.tipo = "d")
    (h3 : ¬(tr.descricao.length < 1 ∨ 10 < tr.descricao.length))
    (ha : atoi idStr = some id) (hr : ¬(id < 1 ∨ 5 < id))
    (h4 : ¬-(L.accounts id).limit ≤ (L.accounts id).balance - tr.valor) :
    handleTransactions L (some tr) idStr = (L, .insufficientLimit) := by
  have h3' : ¬(tr.descricao.length = 0 ∨ 10 < tr.descricao.length) := by omega
  have hfun : (fun j => if j = id then L.accounts id else L.accounts j) =
      L.accounts := by
    funext j
    by_cases hj : j = id <;> simp [hj]
  simp [handleTransactions, debit, h1, h2, h3', ha, hr, h4, hfun]

/-- Rewriting lemma: per-account view of a valid credit. -/
theorem applyAccount_credit (s : AccountState) (tr : transactionRequest)
    (h1 : ¬tr.valor < 1) (h2 : tr.tipo = "c")
    (h3 : ¬(tr.descricao.length < 1 ∨ 10 < tr.descricao.length)) :
    applyAccount s tr =
      ({ s with balance := s.balance + tr.valor,
                log := ⟨tr.valor, "c", tr.descricao, s.log.length + 1⟩ :: s.log },
       .ok s.limit (s.balance + tr.valor)) := by
  simp [applyAccount, credit, h1, h2, h3]
  omega

/-- Rewriting lemma: per-account view of a valid debit within the limit. -/
theorem applyAccount_debit_ok (s : AccountState) (tr : transactionRequest)
    (h1 : ¬tr.valor < 1) (h2 : tr.tipo = "d")
    (h3 : ¬(tr.descricao.length < 1 ∨ 10 < tr.descricao.length))
    (h4 : -s.limit ≤ s.balance - tr.valor) :
    applyAccount s tr =
      ({ s with balance := s.balance - tr.valor,
                log := ⟨tr.valor, "d", tr.descricao, s.log.length + 1⟩ :: s.log },
       .ok s.limit (s.balance - tr.valor)) := by
  simp [applyAccount, debit, h1, h2, h3, h4]
  omega

/-- Rewriting lemma: per-account view of a debit past the limit: rejected
with no state change. -/
theorem applyAccount_debit_reject (s : AccountState) (tr : transactionRequest)
    (h1 : ¬tr.valor < 1) (h2 : tr.tipo = "d")
    (h3 : ¬(tr.descricao.length < 1 ∨ 10 < tr.descricao.length))
    (h4 : ¬-s.limit ≤ s.balance - tr.valor) :
    applyAccount s tr = (s, .insufficientLimit) := by
  have h3' : ¬(tr.descricao.length = 0 ∨ 10 < tr.descricao.length) := by omega
  simp [applyAccount, debit, h1, h2, h3', h4]

/-- Every rejecting branch of `applyAccount` keeps the state; equivalently,
the state component only changes through an accepted credit or debit. -/
theorem applyAccount_state_cases (s : AccountState) (tr : transactionRequest) :
    (applyAccount s tr).1 = s ∨
    ((applyAccount s tr).1 =
      { s with balance := s.balance + tr.valor,
               log := ⟨tr.valor, "c", tr.descricao, s.log.length + 1⟩ :: s.log } ∧
      ¬tr.valor < 1) ∨
    ((applyAccount s tr).1 =
      { s with balance := s.balance - tr.valor,
               log := ⟨tr.valor, "d", tr.descricao, s.log.length + 1⟩ :: s.log } ∧
      ¬tr.valor < 1 ∧ -s.limit ≤ s.balance - tr.valor) := by
  by_cases h1 : tr.valor < 1
  · left; simp [applyAccount, h1]
  by_cases h2 : tr.tipo ≠ "d" ∧ tr.tipo ≠ "c"
  · left; simp [applyAccount, h1, h2]
  by_cases h3 : tr.descricao.length < 1 ∨ 10 < tr.descricao.length
  · left
    simp [applyAccount, h1, h2]
    rw [if_pos (show tr.descricao.length = 0 ∨ 10 < tr.descricao.length by omega)]
  by_cases hc : tr.tipo = "c"
  · right; left
    rw [applyAccount_credit s tr h1 hc h3]
    exact ⟨rfl, h1⟩
  · have hd : tr.tipo = "d" := by
      rcases not_and_or.mp h2 with h | h
      · exact not_not.mp h
      · exact absurd (not_not.mp h) hc
    by_cases h4 : -s.limit ≤ s.balance - tr.valor
    · right; right
      rw [applyAccount_debit_ok s tr h1 hd h3 h4]
      exact ⟨rfl, h1, h4⟩
    · left
      rw [applyAccount_debit_reject s tr h1 hd h3 h4]

/-- One apply step never changes the account's limit. -/
theorem applyAccount_limit (s : AccountState) (tr : transactionRequest) :
    ((applyAccount s tr).1).limit = s.limit := by
  rcases applyAccount_state_cases s tr with h | ⟨h, -⟩ | ⟨h, -⟩ <;> rw [h]

/-- One apply step preserves the overdraft floor `-limit ≤ balance`. -/
theorem applyAccount_overdraft (s : AccountState) (tr : transactionRequest)
    (h : -s.limit ≤ s.balance) :
    -((applyAccount s tr).1).limit ≤ ((applyAccount s tr).1).balance := by
  rcases applyAccount_state_cases s tr with hc | ⟨hc, h1⟩ | ⟨hc, h1, h4⟩ <;>
      rw [hc]
  · exact h
  · simp
    omega
  · simp
    omega

/-- The net effect of a log grows by the effect of the appended entry. -/
theorem netEffect_cons (t : Txn) (l : List Txn) :
    netEffect (t :: l) = txnEffect t + netEffect l := by
  simp [netEffect]

/-- One apply step preserves the `Good` invariant. -/
theorem applyAccount_good (lim b0 : Int) (s : AccountState)
    (tr : transactionRequest) (hg : Good lim b0 s) :
    Good lim b0 ((applyAccount s tr).1) := by
  obtain ⟨hl, hb, hs⟩ := hg
  rcases applyAccount_state_cases s tr with hc | ⟨hc, h1⟩ | ⟨hc, h1, h4⟩ <;> rw [hc]
  · exact ⟨hl, hb, hs⟩
  · refine ⟨hl, ?_, ?_⟩
    · simp [netEffect_cons, txnEffect, hb]
      omega
    · simp [countdown, hs]
  · refine ⟨hl, ?_, ?_⟩
    · simp [netEffect_cons, txnEffect, hb]
      omega
    · simp [countdown, hs]

/-- Replaying any request sequence preserves the overdraft floor. -/
theorem runOps_overdraft (ops : List transactionRequest) (s : AccountState)
    (h : -s.limit ≤ s.balance) :
    -(runOps s ops).limit ≤ (runOps s ops).balance := by
  induction ops generalizing s with
  | nil => exact h
  | cons op ops ih => exact ih _ (applyAccount_overdraft s op h)

/-- Replaying any request sequence preserves the `Good` invariant. -/
theorem runOps_good_step (lim b0 : Int) (ops : List transactionRequest)
    (s : AccountState) (hg : Good lim b0 s) : Good lim b0 (runOps s ops) := by
  induction ops generalizing s with
  | nil => exact hg
  | cons op ops ih => exact ih _ (applyAccount_good lim b0 s op hg)

/-- Every state reached from a freshly provisioned account is `Good`. -/
theorem runOps_good (lim b0 : Int) (ops : List transactionRequest) :
    Good lim b0 (runOps (mkAccount lim b0) ops) := by
  refine runOps_good_step lim b0 ops _ ⟨rfl, ?_, rfl⟩
  simp [mkAccount, netEffect]

/-- Every member of `countdown n` is at most `n`. -/
theorem mem_countdown {x n : Nat} (h : x ∈ countdown n) : x ≤ n := by
  induction n with
  | zero => simp [countdown] at h
  | succ n ih =>
    rcases List.mem_cons.mp h with h | h
    · omega
    · exact Nat.le_succ_of_le (ih h)

/-- The list `[n, ..., 1]` is strictly decreasing. -/
theorem countdown_pairwise (n : Nat) :
    (countdown n).Pairwise (fun a b => b < a) := by
  induction n with
  | zero => exact List.Pairwise.nil
  | succ n ih =>
    refine List.pairwise_cons.mpr ⟨?_, ih⟩
    intro x hx
    exact Nat.lt_succ_of_le (mem_countdown hx)

/-- In a `Good` state, the ten most recent log entries are strictly
descending by sequence number. -/
theorem good_take_pairwise (lim b0 : Int) (s : AccountState)
    (hg : Good lim b0 s) :
    (s.log.take 10).Pairwise (fun a b => b.seq < a.seq) := by
  obtain ⟨-, -, hs⟩ := hg
  have h1 : ((s.log.take 10).map Txn.seq).Pairwise (fun a b => b < a) := by
    rw [List.map_take, hs]
    exact List.Pairwise.sublist (List.take_sublist _ _) (countdown_pairwise _)
  exact List.pairwise_map.mp h1

end Lemmas

section Claims

/-- C1: for every reachable account state, `balance ≥ -limit`: a valid debit
request is accepted iff the candidate balance `balance - amount` is at least
`-limit`, and otherwise it is rejected as `insufficientLimit` with no state
change; consequently no sequence of apply requests ever drives an account
whose balance respects the floor below `-limit`. -/
theorem C1_overdraft_safety :
    (∀ (s : AccountState) (tr : transactionRequest), bodyValid tr →
      tr.tipo = "d" →
      (if -s.limit ≤ s.balance - tr.valor then
        applyAccount s tr =
          ({ s with balance := s.balance - tr.valor,
                    log := ⟨tr.valor, "d", tr.descricao, s.log.length + 1⟩ :: s.log },
           ApplyResult.ok s.limit (s.balance - tr.valor))
       else applyAccount s tr = (s, ApplyResult.insufficientLimit))) ∧
    (∀ (s : AccountState) (ops : List transactionRequest), -s.limit ≤ s.balance →
      -(runOps s ops).limit ≤ (runOps s ops).balance) := by
  constructor
  · intro s tr hv hd
    obtain ⟨hv1, -, hv3, hv4⟩ := hv
    have h1 : ¬tr.valor < 1 := by omega
    have h3 : ¬(tr.descricao.length < 1 ∨ 10 < tr.descricao.length) := by omega
    by_cases h4 : -s.limit ≤ s.balance - tr.valor
    · rw [if_pos h4]
      exact applyAccount_debit_ok s tr h1 hd h3 h4
    · rw [if_neg h4]
      exact applyAccount_debit_reject s tr h1 hd h3 h4
  · intro s ops h
    exact runOps_overdraft ops s h

/-- Witness for C1 at the spec's scenarios: on an account with limit 100 and
balance 0, a debit of 150 is rejected with no state change, and replaying
debit 150, debit 80, debit 80 never breaches the floor (exactly one of the
two debits of 80 lands). -/
theorem C1_overdraft_safety_witness :
    applyAccount (mkAccount 100 0) ⟨150, "d", "x"⟩ =
      (mkAccount 100 0, ApplyResult.insufficientLimit) ∧
    -(runOps (mkAccount 100 0) [⟨150, "d", "x"⟩, ⟨80, "d", "a"⟩, ⟨80, "d", "a"⟩]).limit
      ≤ (runOps (mkAccount 100 0) [⟨150, "d", "x"⟩, ⟨80, "d", "a"⟩, ⟨80, "d", "a"⟩]).balance := by
  constructor
  · have h := C1_overdraft_safety.1 (mkAccount 100 0) ⟨150, "d", "x"⟩
      (by decide) rfl
    rw [if_neg (by decide)] at h
    exact h
  · exact C1_overdraft_safety.2 (mkAccount 100 0) _ (by decide)

/-- C2: every snapshot reflects one consistent instant: modelling each
`apply` as one atomic step (the indivisibility the spec delegates to the
`db.sql` stored procedures and the read transaction), every state reachable
from a provisioned account has `balance = opening + netEffect log`, so the
snapshot's balance already reflects every transaction it lists (the listed
transactions are the newest entries of that same log), and no log entry
without its balance effect (or vice versa) is ever observable. -/
theorem C2_snapshot_consistency (lim b0 : Int) (ops : List transactionRequest) :
    (snapshotAccount (runOps (mkAccount lim b0) ops)).total =
      b0 + netEffect (runOps (mkAccount lim b0) ops).log ∧
    (snapshotAccount (runOps (mkAccount lim b0) ops)).limite = lim ∧
    ∃ older, (runOps (mkAccount lim b0) ops).log =
      (snapshotAccount (runOps (mkAccount lim b0) ops)).txns ++ older := by
  obtain ⟨hl, hb, -⟩ := runOps_good lim b0 ops
  exact ⟨hb, hl, (runOps (mkAccount lim b0) ops).log.drop 10,
    (List.take_append_drop 10 _).symm⟩

/-- C3: every rejected apply call (404 not-found, 422 invalid input, 422
insufficient limit) leaves the ledger exactly as it was: no balance change
and no orphaned log entry. -/
theorem C3_rejected_no_change (L : Ledger) (body : Option transactionRequest)
    (idStr : String)
    (h : ((handleTransactions L body idStr).2).isOk = false) :
    (handleTransactions L body idStr).1 = L := by
  cases body with
  | none => rfl
  | some tr =>
    by_cases h1 : tr.valor < 1
    · rw [ht_bad_valor L tr idStr h1]
    · by_cases h2 : tr.tipo ≠ "d" ∧ tr.tipo ≠ "c"
      · rw [ht_bad_tipo L tr idStr h1 h2.1 h2.2]
      · have h2' : tr.tipo = "d" ∨ tr.tipo = "c" := by
          rcases not_and_or.mp h2 with h' | h'
          · exact Or.inl (not_not.mp h')
          · exact Or.inr (not_not.mp h')
        by_cases h3 : tr.descricao.length < 1 ∨ 10 < tr.descricao.length
        · rw [ht_bad_desc L tr idStr h1 h2' h3]
        · cases ha : atoi idStr with
          | none => rw [ht_id_parse_fail L tr idStr h1 h2' h3 ha]
          | some id =>
            by_cases hr : id < 1 ∨ 5 < id
            · rw [ht_id_range L tr idStr id h1 h2' h3 ha hr]
            · rcases h2' with hd | hc
              · by_cases h4 :
                  -(L.accounts id).limit ≤ (L.accounts id).balance - tr.valor
                · rw [ht_debit_ok L tr idStr id h1 hd h3 ha hr h4] at h
                  simp [ApplyResult.isOk] at h
                · rw [ht_debit_reject L tr idStr id h1 hd h3 ha hr h4]
              · rw [ht_credit L tr idStr id h1 hc h3 ha hr] at h
                simp [ApplyResult.isOk] at h

/-- Witness for C3: a debit of 150 on account 1 (limit 100, balance 0) is
rejected and the ledger is unchanged. -/
theorem C3_rejected_no_change_witness :
    ((handleTransactions L0 (some ⟨150, "d", "x"⟩) "1").2).isOk = false ∧
    (handleTransactions L0 (some ⟨150, "d", "x"⟩) "1").1 = L0 :=
  ⟨by decide, C3_rejected_no_change L0 (some ⟨150, "d", "x"⟩) "1" (by decide)⟩

/-- C5: the snapshot's transaction list holds at most the 10 most recent
entries, all of them when at most 10 exist, strictly descending by sequence
number, while the snapshot's balance reflects the whole log, not only the
returned slice. -/
theorem C5_statement_ordering (lim b0 : Int) (ops : List transactionRequest) :
    (snapshotAccount (runOps (mkAccount lim b0) ops)).txns.length ≤ 10 ∧
    ((runOps (mkAccount lim b0) ops).log.length ≤ 10 →
      (snapshotAccount (runOps (mkAccount lim b0) ops)).txns =
        (runOps (mkAccount lim b0) ops).log) ∧
    ((snapshotAccount (runOps (mkAccount lim b0) ops)).txns).Pairwise
      (fun a b => b.seq < a.seq) ∧
    (snapshotAccount (runOps (mkAccount lim b0) ops)).total =
      b0 + netEffect (runOps (mkAccount lim b0) ops).log := by
  refine ⟨?_, ?_, ?_, ?_⟩
  · simp [snapshotAccount, List.length_take]
  · intro hlen
    simp [snapshotAccount, List.take_of_length_le hlen]
  · exact good_take_pairwise lim b0 _ (runOps_good lim b0 ops)
  · exact (runOps_good lim b0 ops).2.1

/-- Witness for C5: after a credit of 100 and a debit of 50 the snapshot
lists both transactions (fewer than 10 exist) and shows balance 50. -/
theorem C5_statement_ordering_witness :
    (runOps (mkAccount 1000 0) [⟨100, "c", "dep"⟩, ⟨50, "d", "pay"⟩]).log.length ≤ 10 ∧
    (snapshotAccount (runOps (mkAccount 1000 0) [⟨100, "c", "dep"⟩, ⟨50, "d", "pay"⟩])).txns =
      (runOps (mkAccount 1000 0) [⟨100, "c", "dep"⟩, ⟨50, "d", "pay"⟩]).log :=
  ⟨by decide, (C5_statement_ordering 1000 0 [⟨100, "c", "dep"⟩, ⟨50, "d", "pay"⟩]).2.1
    (by decide)⟩

/-- C4 counterexample: a request for the unprovisioned account 6 whose
amount is invalid (0) is answered `invalidInput` (422), not `notFound`
(404), because the handler validates the body before looking at the account
id — refuting the claim that the accountId check comes first. -/
theorem C4_counterexample :
    (handleTransactions L0 (some ⟨0, "c", "x"⟩) "6").2 = ApplyResult.invalidInput ∧
    ApplyResult.invalidInput ≠ ApplyResult.notFound := by
  exact ⟨by decide, by decide⟩

/-- C4 (amended): the actual validation order of `handleTransactions` is
(1) amount positive, (2) kind in {"d","c"}, (3) description 1..10
codepoints — each rejected as `invalidInput` — and only then (4) the
account-id parse and (5) the range 1..5, rejected as `notFound`; an
unprovisioned accountId yields `notFound` only when the body checks pass. -/
theorem C4_validation_order (L : Ledger) (tr : transactionRequest)
    (idStr : String) :
    (tr.valor < 1 →
      (handleTransactions L (some tr) idStr).2 = ApplyResult.invalidInput) ∧
    (¬tr.valor < 1 → tr.tipo ≠ "d" → tr.tipo ≠ "c" →
      (handleTransactions L (some tr) idStr).2 = ApplyResult.invalidInput) ∧
    (¬tr.valor < 1 → (tr.tipo = "d" ∨ tr.tipo = "c") →
      (tr.descricao.length < 1 ∨ 10 < tr.descricao.length) →
      (handleTransactions L (some tr) idStr).2 = ApplyResult.invalidInput) ∧
    (bodyValid tr → atoi idStr = none →
      (handleTransactions L (some tr) idStr).2 = ApplyResult.notFound) ∧
    (∀ id : Int, bodyValid tr → atoi idStr = some id → (id < 1 ∨ 5 < id) →
      (handleTransactions L (some tr) idStr).2 = ApplyResult.notFound) := by
  refine ⟨?_, ?_, ?_, ?_, ?_⟩
  · intro h1
    rw [ht_bad_valor L tr idStr h1]
  · intro h1 h2 h3
    rw [ht_bad_tipo L tr idStr h1 h2 h3]
  · intro h1 h2 h3
    rw [ht_bad_desc L tr idStr h1 h2 h3]
  · intro hv ha
    obtain ⟨hv1, h2, hv3, hv4⟩ := hv
    have h1 : ¬tr.valor < 1 := by omega
    have h3 : ¬(tr.descricao.length < 1 ∨ 10 < tr.descricao.length) := by omega
    rw [ht_id_parse_fail L tr idStr h1 h2 h3 ha]
  · intro id hv ha hr
    obtain ⟨hv1, h2, hv3, hv4⟩ := hv
    have h1 : ¬tr.valor < 1 := by omega
    have h3 : ¬(tr.descricao.length < 1 ∨ 10 < tr.descricao.length) := by omega
    rw [ht_id_range L tr idStr id h1 h2 h3 ha hr]

/-- Witness for C4 (amended): with a valid body, account 6 is `notFound`;
with amount 0 the same route is `invalidInput`. -/
theorem C4_validation_order_witness :
    (handleTransactions L0 (some ⟨0, "c", "x"⟩) "6").2 = ApplyResult.invalidInput ∧
    (handleTransactions L0 (some ⟨10, "c", "x"⟩) "6").2 = ApplyResult.notFound := by
  constructor
  · exact (C4_validation_order L0 ⟨0, "c", "x"⟩ "6").1 (by decide)
  · exact (C4_validation_order L0 ⟨10, "c", "x"⟩ "6").2.2.2.2 6 (by decide)
      (by decide) (by decide)

/-- C6: with a positive amount and a known kind, the apply call is rejected
as `invalidInput` exactly when the description has fewer than 1 or more than
10 Unicode codepoints (`utf8.RuneCountInString`, i.e. codepoints not
bytes). -/
theorem C6_description_validation (L : Ledger) (tr : transactionRequest)
    (idStr : String) (h1 : ¬tr.valor < 1) (h2 : tr.tipo = "d" ∨ tr.tipo = "c") :
    ((handleTransactions L (some tr) idStr).2 = ApplyResult.invalidInput ↔
      (tr.descricao.length < 1 ∨ 10 < tr.descricao.length)) := by
  constructor
  · intro h
    by_contra h3
    cases ha : atoi idStr with
    | none =>
      rw [ht_id_parse_fail L tr idStr h1 h2 h3 ha] at h
      simp at h
    | some id =>
      by_cases hr : id < 1 ∨ 5 < id
      · rw [ht_id_range L tr idStr id h1 h2 h3 ha hr] at h
        simp at h
      · rcases h2 with hd | hc
        · by_cases h4 : -(L.accounts id).limit ≤ (L.accounts id).balance - tr.valor
          · rw [ht_debit_ok L tr idStr id h1 hd h3 ha hr h4] at h
            simp at h
          · rw [ht_debit_reject L tr idStr id h1 hd h3 ha hr h4] at h
            simp at h
        · rw [ht_credit L tr idStr id h1 hc h3 ha hr] at h
          simp at h
  · intro h3
    rw [ht_bad_desc L tr idStr h1 h2 h3]

/-- Witness for C6: the empty description and an 11-codepoint description
are rejected, while a 10-codepoint all-multibyte description passes. -/
theorem C6_description_validation_witness :
    (handleTransactions L0 (some ⟨10, "c", ""⟩) "1").2 = ApplyResult.invalidInput ∧
    (handleTransactions L0 (some ⟨10, "c", "elevenchars"⟩) "1").2 =
      ApplyResult.invalidInput ∧
    (handleTransactions L0 (some ⟨10, "c", "áéíóúâêîôû"⟩) "1").2 ≠
      ApplyResult.invalidInput := by
  refine ⟨?_, ?_, ?_⟩
  · exact (C6_description_validation L0 ⟨10, "c", ""⟩ "1" (by decide)
      (Or.inr rfl)).mpr (by decide)
  · exact (C6_description_validation L0 ⟨10, "c", "elevenchars"⟩ "1" (by decide)
      (Or.inr rfl)).mpr (by decide)
  · intro h
    exact absurd ((C6_description_validation L0 ⟨10, "c", "áéíóúâêîôû"⟩ "1"
      (by decide) (Or.inr rfl)).mp h) (by decide)

/-- C7: with a valid body, an apply call is `notFound` exactly when the
parsed account id lies outside the provisioned range 1..5, and a statement
read is `notFound` exactly under the same condition; in particular neither
operation is `notFound` on a provisioned id. -/
theorem C7_provisioned_ids :
    (∀ (L : Ledger) (tr : transactionRequest) (idStr : String) (id : Int),
      bodyValid tr → atoi idStr = some id →
      ((handleTransactions L (some tr) idStr).2 = ApplyResult.notFound ↔
        (id < 1 ∨ 5 < id))) ∧
    (∀ (L : Ledger) (idStr : String) (id : Int), atoi idStr = some id →
      (handleStatement L idStr = none ↔ (id < 1 ∨ 5 < id))) := by
  constructor
  · intro L tr idStr id hv ha
    obtain ⟨hv1, h2, hv3, hv4⟩ := hv
    have h1 : ¬tr.valor < 1 := by omega
    have h3 : ¬(tr.descricao.length < 1 ∨ 10 < tr.descricao.length) := by omega
    constructor
    · intro h
      by_contra hr
      rcases h2 with hd | hc
      · by_cases h4 : -(L.accounts id).limit ≤ (L.accounts id).balance - tr.valor
        · rw [ht_debit_ok L tr idStr id h1 hd h3 ha hr h4] at h
          simp at h
        · rw [ht_debit_reject L tr idStr id h1 hd h3 ha hr h4] at h
          simp at h
      · rw [ht_credit L tr idStr id h1 hc h3 ha hr] at h
        simp at h
    · intro hr
      rw [ht_id_range L tr idStr id h1 h2 h3 ha hr]
  · intro L idStr id ha
    constructor
    · intro h
      by_contra hr
      simp [handleStatement, ha, hr] at h
    · intro hr
      simp [handleStatement, ha, hr]

/-- Witness for C7: id 6 is `notFound` for both operations, id 3 is not. -/
theorem C7_provisioned_ids_witness :
    (handleTransactions L0 (some ⟨10, "c", "x"⟩) "6").2 = ApplyResult.notFound ∧
    handleStatement L0 "6" = none ∧
    handleStatement L0 "3" ≠ none := by
  refine ⟨?_, ?_, ?_⟩
  · exact (C7_provisioned_ids.1 L0 ⟨10, "c", "x"⟩ "6" 6 (by decide)
      (by decide)).mpr (by decide)
  · exact (C7_provisioned_ids.2 L0 "6" 6 (by decide)).mpr (by decide)
  · intro h
    exact absurd ((C7_provisioned_ids.2 L0 "3" 3 (by decide)).mp h) (by decide)

/-- The connection loop only ever inspects the attempts it has fuel for. -/
theorem connectFrom_congr (att att' : Nat → Bool) :
    ∀ (fuel i : Nat), (∀ j, i ≤ j → j < i + fuel → att j = att' j) →
      connectFrom att i fuel = connectFrom att' i fuel := by
  intro fuel
  induction fuel with
  | zero => intro i h; rfl
  | succ fuel ih =>
    intro i h
    have h0 : att i = att' i := h i (le_refl i) (by omega)
    simp only [connectFrom]
    rw [h0]
    by_cases hi : att' i = true
    · simp [hi]
    · simp only [hi, if_false, Bool.false_eq_true]
      exact ih (i + 1) fun j hj1 hj2 => h j (by omega) (by omega)

/-- When every attempt it has fuel for fails, the connection loop reports no
connection. -/
theorem connectFrom_allfail (att : Nat → Bool) :
    ∀ (fuel i : Nat), (∀ j, i ≤ j → j < i + fuel → att j = false) →
      connectFrom att i fuel = false := by
  intro fuel
  induction fuel with
  | zero => intro i h; rfl
  | succ fuel ih =>
    intro i h
    simp only [connectFrom]
    rw [h i (le_refl i) (by omega)]
    simp only [Bool.false_eq_true, if_false]
    exact ih (i + 1) fun j hj1 hj2 => h j (by omega) (by omega)

/-- C8 counterexample: a backing-store failure during apply is answered with
the very same status (422) as the deterministic `InsufficientLimit`
rejection — there is no distinct `TransientStorageFailure` outcome — and a
failed customer-row scan during a statement read is silently discarded,
producing a 200 response with zeroed limit and balance. -/
theorem C8_counterexample :
    transactionsStatus (some ⟨50, "d", "x"⟩) "1" DbApply.err =
      transactionsStatus (some ⟨50, "d", "x"⟩) "1" (DbApply.res 0 false 0) ∧
    statementRun "1" ⟨true, none, true⟩ = (200, 0, 0) := by
  exact ⟨by decide, by decide⟩

/-- C8 (amended): `handleStatement` surfaces `Begin` and transaction-query
failures as a distinct 500, but `handleTransactions` reports a storage
failure with the same 422 it uses for rejections, and the customer-row scan
error in `handleStatement` is discarded: the response is a 200 carrying
whatever the scan left behind (the zero values on a failed scan). -/
theorem C8_error_surfacing :
    (∀ (tr : transactionRequest) (idStr : String) (id : Int), bodyValid tr →
      atoi idStr = some id → ¬(id < 1 ∨ 5 < id) →
      transactionsStatus (some tr) idStr DbApply.err = 422) ∧
    (∀ (idStr : String) (id : Int) (d : StatementDb), atoi idStr = some id →
      ¬(id < 1 ∨ 5 < id) → d.beginOk = false →
      statementRun idStr d = (500, 0, 0)) ∧
    (∀ (idStr : String) (id : Int) (d : StatementDb), atoi idStr = some id →
      ¬(id < 1 ∨ 5 < id) → d.beginOk = true → d.queryOk = false →
      statementRun idStr d = (500, 0, 0)) ∧
    (∀ (idStr : String) (id : Int) (row : Option (Int × Int)),
      atoi idStr = some id → ¬(id < 1 ∨ 5 < id) →
      statementRun idStr ⟨true, row, true⟩ =
        (200, (row.getD (0, 0)).1, (row.getD (0, 0)).2)) := by
  refine ⟨?_, ?_, ?_, ?_⟩
  · intro tr idStr id hv ha hr
    obtain ⟨hv1, h2, hv3, hv4⟩ := hv
    have h1 : ¬tr.valor < 1 := by omega
    have h3' : ¬(tr.descricao.length = 0 ∨ 10 < tr.descricao.length) := by omega
    rcases h2 with h2 | h2 <;> simp [transactionsStatus, h1, h2, h3', ha, hr]
  · intro idStr id d ha hr hb
    simp [statementRun, ha, hr, hb]
  · intro idStr id d ha hr hb hq
    simp [statementRun, ha, hr, hb, hq]
  · intro idStr id row ha hr
    simp [statementRun, ha, hr]

/-- Witness for C8 (amended) on account 1: storage failure in apply is 422,
`Begin` failure and query failure in statement are 500, and a failed
customer-row scan yields a 200 with zeroed values. -/
theorem C8_error_surfacing_witness :
    transactionsStatus (some ⟨50, "d", "x"⟩) "1" DbApply.err = 422 ∧
    statementRun "1" ⟨false, some (3, 4), true⟩ = (500, 0, 0) ∧
    statementRun "1" ⟨true, some (3, 4), false⟩ = (500, 0, 0) ∧
    statementRun "1" ⟨true, none, true⟩ = (200, 0, 0) := by
  refine ⟨?_, ?_, ?_, ?_⟩
  · exact C8_error_surfacing.1 ⟨50, "d", "x"⟩ "1" 1 (by decide) (by decide)
      (by decide)
  · exact C8_error_surfacing.2.1 "1" 1 ⟨false, some (3, 4), true⟩ (by decide)
      (by decide) rfl
  · exact C8_error_surfacing.2.2.1 "1" 1 ⟨true, some (3, 4), false⟩ (by decide)
      (by decide) rfl rfl
  · exact C8_error_surfacing.2.2.2 "1" 1 none (by decide) (by decide)

/-- C9 counterexample: when all ten connection attempts fail, `main` does
not report a failure — it proceeds (printing "Connected to DB") with no
connection, refuting the claim that exhaustion is reported as
`TransientStorageFailure`. -/
theorem C9_counterexample :
    startup (fun _ => false) = StartupResult.proceed false ∧
    startup (fun _ => false) ≠ StartupResult.reportFailure := by
  exact ⟨rfl, by decide⟩

/-- C9 (amended): the startup loop is bounded — it inspects at most the
first ten attempts, so it never loops forever — but on exhaustion it
proceeds as if connected instead of reporting a failure; no execution of
`startup` reports one. -/
theorem C9_bounded_retry :
    (∀ att att' : Nat → Bool, (∀ i, i < 10 → att i = att' i) →
      startup att = startup att') ∧
    (∀ att : Nat → Bool, (∀ i, i < 10 → att i = false) →
      startup att = StartupResult.proceed false) ∧
    (∀ att : Nat → Bool, startup att ≠ StartupResult.reportFailure) := by
  refine ⟨?_, ?_, ?_⟩
  · intro att att' h
    exact congrArg StartupResult.proceed
      (connectFrom_congr att att' 10 0 fun j hj1 hj2 => h j (by omega))
  · intro att h
    exact congrArg StartupResult.proceed
      (connectFrom_allfail att 10 0 fun j hj1 hj2 => h j (by omega))
  · intro att h
    exact StartupResult.noConfusion h

/-- Witness for C9 (amended): the all-failing attempt schedule agrees with
one that only succeeds from attempt 10 on, exhausts the loop, proceeds
unconnected, and never reports a failure. -/
theorem C9_bounded_retry_witness :
    startup (fun _ => false) = startup (fun i => decide (10 ≤ i)) ∧
    startup (fun _ => false) = StartupResult.proceed false ∧
    startup (fun _ => false) ≠ StartupResult.reportFailure :=
  ⟨C9_bounded_retry.1 _ _ (fun i hi => (decide_eq_false (by omega)).symm),
   C9_bounded_retry.2.1 _ (fun i _ => rfl),
   C9_bounded_retry.2.2 _⟩

/-- C10 counterexample: a request whose `{id}` segment does not parse,
combined with an invalid body (amount 0), is answered `invalidInput`, not
`notFound` — the body is validated before the path segment, refuting the
claim that an unparseable id yields `notFound` before any body
validation. -/
theorem C10_counterexample :
    (handleTransactions L0 (some ⟨0, "c", "x"⟩) "abc").2 = ApplyResult.invalidInput ∧
    ApplyResult.invalidInput ≠ ApplyResult.notFound := by
  exact ⟨by decide, by decide⟩

/-- C10 (amended): a statement read with an unparseable `{id}` is `notFound`
before the backing store is consulted, and an apply with an unparseable
`{id}` is `notFound` — also without consulting the store — exactly when the
body passes its checks (otherwise the body rejection takes precedence);
"without touching the store" is expressed by the response being independent
of the storage outcome. -/
theorem C10_unparseable_id :
    (∀ (L : Ledger) (tr : transactionRequest) (idStr : String), bodyValid tr →
      atoi idStr = none →
      handleTransactions L (some tr) idStr = (L, ApplyResult.notFound)) ∧
    (∀ (tr : transactionRequest) (idStr : String) (d d' : DbApply),
      atoi idStr = none →
      transactionsStatus (some tr) idStr d = transactionsStatus (some tr) idStr d') ∧
    (∀ (L : Ledger) (idStr : String), atoi idStr = none →
      handleStatement L idStr = none) ∧
    (∀ (idStr : String) (d d' : StatementDb), atoi idStr = none →
      (statementRun idStr d).1 = 404 ∧
        statementRun idStr d = statementRun idStr d') := by
  refine ⟨?_, ?_, ?_, ?_⟩
  · intro L tr idStr hv ha
    obtain ⟨hv1, h2, hv3, hv4⟩ := hv
    have h1 : ¬tr.valor < 1 := by omega
    have h3 : ¬(tr.descricao.length < 1 ∨ 10 < tr.descricao.length) := by omega
    exact ht_id_parse_fail L tr idStr h1 h2 h3 ha
  · intro tr idStr d d' ha
    by_cases h1 : tr.valor < 1
    · simp [transactionsStatus, h1]
    · by_cases h2 : tr.tipo ≠ "d" ∧ tr.tipo ≠ "c"
      · simp [transactionsStatus, h1, h2]
      · have h2' : tr.tipo = "d" ∨ tr.tipo = "c" := by
          rcases not_and_or.mp h2 with h' | h'
          · exact Or.inl (not_not.mp h')
          · exact Or.inr (not_not.mp h')
        by_cases h3 : tr.descricao.length = 0 ∨ 10 < tr.descricao.length
        · rcases h2' with h2' | h2' <;> rcases h3 with h3 | h3 <;>
            simp [transactionsStatus, h1, h2', h3]
        · rcases h2' with h2' | h2' <;>
            simp [transactionsStatus, h1, h2', h3, ha]
  · intro L idStr ha
    simp [handleStatement, ha]
  · intro idStr d d' ha
    exact ⟨by simp [statementRun, ha], by simp [statementRun, ha]⟩

/-- Witness for C10 (amended) at the unparseable id "abc": apply with a
valid body is `notFound` with the ledger untouched, the apply status is
independent of the storage outcome, and the statement read is `notFound`
with status 404. -/
theorem C10_unparseable_id_witness :
    handleTransactions L0 (some ⟨10, "c", "x"⟩) "abc" = (L0, ApplyResult.notFound) ∧
    transactionsStatus (some ⟨10, "c", "x"⟩) "abc" DbApply.err =
      transactionsStatus (some ⟨10, "c", "x"⟩) "abc" (DbApply.res 5 true 7) ∧
    handleStatement L0 "abc" = none ∧
    (statementRun "abc" ⟨true, some (3, 4), true⟩).1 = 404 :=
  ⟨C10_unparseable_id.1 L0 ⟨10, "c", "x"⟩ "abc" (by decide) (by decide),
   C10_unparseable_id.2.1 ⟨10, "c", "x"⟩ "abc" DbApply.err (DbApply.res 5 true 7)
     (by decide),
   C10_unparseable_id.2.2.1 L0 "abc" (by decide),
   (C10_unparseable_id.2.2.2 "abc" ⟨true, some (3, 4), true⟩
     ⟨false, none, false⟩ (by decide)).1⟩

end Claims

end Rinha
